import Mathlib

/-!
Shallow embedding of the EcoCircle client core:
  * the posts/comments/likes synchronization reducer
    (src/context/postsContext.tsx, `postsReducer`),
  * the content gateway operations `createPost`, `uploadPostImage`
    and `toggleLike` (src/services/postsService.ts), and
  * the moderation service `validatePostContent` with its helpers
    (src/services/geminiValidationService.ts).

TypeScript conventions are translated explicitly:
  * optional fields (`like_count?: number`) become `Option` fields;
  * the JS read `x || 0` on numbers becomes `jsNumOr0` (0 and
    undefined are both falsy and read as 0);
  * `s || "d"` on strings becomes `jsOrStr` (empty string is falsy);
  * `Partial<Post>` becomes a record of `Option`-wrapped fields
    (`PostUpdates`), merged with object spread (`mergePost`);
  * asynchronous store/adapter calls become explicit outcome
    parameters: a pure function of the call results the source
    would have awaited.
-/

namespace EcoCircle

/-- JS numeric read `x || 0` on an optional number field:
undefined and 0 are falsy, every other integer is truthy. -/
def jsNumOr0 (x : Option Int) : Int :=
  match x with
  | some v => v
  | none => 0

/-- JS string read `s || d`: undefined and the empty string are falsy. -/
def jsOrStr (s : Option String) (d : String) : String :=
  match s with
  | some t => if t = "" then d else t
  | none => d

/-- JS `s || null` on an optional string: empty string collapses to null. -/
def jsOrNullStr (s : Option String) : Option String :=
  match s with
  | some t => if t = "" then none else some t
  | none => none

/-- JS truthiness test `!s` for an optional string (`!postData.content`). -/
def jsFalsyStr (s : Option String) : Bool :=
  match s with
  | some t => t = ""
  | none => true

/-- The `Post` interface of src/services/postsService.ts. -/
structure Post where
  id : String
  user_id : String
  title : Option String
  content : Option String
  image_url : Option String
  category : String
  created_at : String
  updated_at : String
  like_count : Option Int
  comment_count : Option Int
  user_email : Option String
  user_name : Option String
  is_liked : Option Bool
deriving DecidableEq, Repr

/-- The `Comment` interface of src/services/postsService.ts. -/
structure Comment where
  id : String
  post_id : String
  user_id : String
  content : String
  created_at : String
  updated_at : String
  user_email : Option String
  user_name : Option String
deriving DecidableEq, Repr

/-- `Partial<Post>`: each field may be absent (outer `none`) or present
with the field's (possibly undefined) value. -/
structure PostUpdates where
  id : Option String
  user_id : Option String
  title : Option (Option String)
  content : Option (Option String)
  image_url : Option (Option String)
  category : Option String
  created_at : Option String
  updated_at : Option String
  like_count : Option (Option Int)
  comment_count : Option (Option Int)
  user_email : Option (Option String)
  user_name : Option (Option String)
  is_liked : Option (Option Bool)
deriving DecidableEq, Repr

/-- The empty `Partial<Post>` (no field present). -/
def noUpdates : PostUpdates :=
  { id := none, user_id := none, title := none, content := none
    image_url := none, category := none, created_at := none
    updated_at := none, like_count := none, comment_count := none
    user_email := none, user_name := none, is_liked := none }

/-- Object spread `{ ...post, ...updates }` of postsContext.tsx
(UPDATE_POST): a field present in `updates` overrides the post's. -/
def mergePost (post : Post) (updates : PostUpdates) : Post :=
  { id := updates.id.getD post.id
    user_id := updates.user_id.getD post.user_id
    title := updates.title.getD post.title
    content := updates.content.getD post.content
    image_url := updates.image_url.getD post.image_url
    category := updates.category.getD post.category
    created_at := updates.created_at.getD post.created_at
    updated_at := updates.updated_at.getD post.updated_at
    like_count := updates.like_count.getD post.like_count
    comment_count := updates.comment_count.getD post.comment_count
    user_email := updates.user_email.getD post.user_email
    user_name := updates.user_name.getD post.user_name
    is_liked := updates.is_liked.getD post.is_liked }

/-- `PostsState` of src/context/postsContext.tsx. -/
structure PostsState where
  posts : List Post
  userPosts : List Post
  currentPost : Option Post
  comments : List Comment
  loading : Bool
  error : Option String
  refreshing : Bool
deriving DecidableEq, Repr

/-- `initialState` of src/context/postsContext.tsx. -/
def initialState : PostsState :=
  { posts := [], userPosts := [], currentPost := none, comments := []
    loading := false, error := none, refreshing := false }

/-- `PostsAction` of src/context/postsContext.tsx. -/
inductive PostsAction where
  | setLoading (payload : Bool)
  | setRefreshing (payload : Bool)
  | setError (payload : Option String)
  | setPosts (payload : List Post)
  | setUserPosts (payload : List Post)
  | setCurrentPost (payload : Option Post)
  | setComments (payload : List Comment)
  | addPost (payload : Post)
  | updatePost (postId : String) (updates : PostUpdates)
  | deletePost (payload : String)
  | toggleLike (postId : String) (isLiked : Bool) (likeDelta : Int)
  | addComment (payload : Comment)
  | updateComment (commentId : String) (content : String)
  | deleteComment (payload : String)
  | clearError
  | clearCurrentPost
deriving DecidableEq, Repr

/-- Per-post lambda of the UPDATE_POST `updatePosts` helper. -/
def updatePostFun (postId : String) (updates : PostUpdates) (post : Post) : Post :=
  if post.id = postId then mergePost post updates else post

/-- `updatePosts` helper of the UPDATE_POST branch. -/
def updatePosts (postId : String) (updates : PostUpdates) (posts : List Post) : List Post :=
  posts.map (updatePostFun postId updates)

/-- Per-post lambda of the TOGGLE_LIKE `toggleLikePosts` helper:
sets `is_liked` and adds the delta to `(post.like_count || 0)`. -/
def toggleLikeFun (postId : String) (isLiked : Bool) (likeDelta : Int) (post : Post) : Post :=
  if post.id = postId then
    { post with is_liked := some isLiked
                like_count := some (jsNumOr0 post.like_count + likeDelta) }
  else post

/-- `toggleLikePosts` helper of the TOGGLE_LIKE branch. -/
def toggleLikePosts (postId : String) (isLiked : Bool) (likeDelta : Int)
    (posts : List Post) : List Post :=
  posts.map (toggleLikeFun postId isLiked likeDelta)

/-- Per-post lambda of the ADD_COMMENT `incrementCommentCount` helper. -/
def incCommentFun (postId : String) (post : Post) : Post :=
  if post.id = postId then
    { post with comment_count := some (jsNumOr0 post.comment_count + 1) }
  else post

/-- `incrementCommentCount` helper of the ADD_COMMENT branch. -/
def incrementCommentCount (postId : String) (posts : List Post) : List Post :=
  posts.map (incCommentFun postId)

/-- Per-post lambda of the DELETE_COMMENT `decrementCommentCount` helper:
looks the deleted comment up in the pre-transition comment list and
floors the decrement at zero (`Math.max(.. - 1, 0)`). -/
def decCommentFun (comments : List Comment) (commentId : String) (post : Post) : Post :=
  match comments.find? (fun c => decide (c.id = commentId)) with
  | some deletedComment =>
      if post.id = deletedComment.post_id then
        { post with comment_count := some (max (jsNumOr0 post.comment_count - 1) 0) }
      else post
  | none => post

/-- `decrementCommentCount` helper of the DELETE_COMMENT branch. -/
def decrementCommentCount (comments : List Comment) (commentId : String)
    (posts : List Post) : List Post :=
  posts.map (decCommentFun comments commentId)

/-- `postsReducer` of src/context/postsContext.tsx, branch for branch. -/
def postsReducer (state : PostsState) (action : PostsAction) : PostsState :=
  match action with
  | .setLoading b => { state with loading := b }
  | .setRefreshing b => { state with refreshing := b }
  | .setError e => { state with error := e, loading := false, refreshing := false }
  | .setPosts ps => { state with posts := ps, loading := false, refreshing := false }
  | .setUserPosts ps => { state with userPosts := ps, loading := false, refreshing := false }
  | .setCurrentPost p => { state with currentPost := p, loading := false }
  | .setComments cs => { state with comments := cs, loading := false }
  | .addPost p =>
      { state with posts := p :: state.posts
                   userPosts := p :: state.userPosts
                   loading := false }
  | .updatePost postId updates =>
      { state with
          posts := updatePosts postId updates state.posts
          userPosts := updatePosts postId updates state.userPosts
          currentPost :=
            match state.currentPost with
            | some cp => if cp.id = postId then some (mergePost cp updates) else some cp
            | none => none
          loading := false }
  | .deletePost postId =>
      { state with
          posts := state.posts.filter (fun p => decide (p.id ≠ postId))
          userPosts := state.userPosts.filter (fun p => decide (p.id ≠ postId))
          currentPost :=
            match state.currentPost with
            | some cp => if cp.id = postId then none else some cp
            | none => none
          loading := false }
  | .toggleLike postId isLiked likeDelta =>
      { state with
          posts := toggleLikePosts postId isLiked likeDelta state.posts
          userPosts := toggleLikePosts postId isLiked likeDelta state.userPosts
          currentPost :=
            match state.currentPost with
            | some cp =>
                if cp.id = postId then
                  some { cp with is_liked := some isLiked
                                 like_count := some (jsNumOr0 cp.like_count + likeDelta) }
                else some cp
            | none => none }
  | .addComment c =>
      { state with
          posts := incrementCommentCount c.post_id state.posts
          userPosts := incrementCommentCount c.post_id state.userPosts
          currentPost :=
            match state.currentPost with
            | some cp =>
                if cp.id = c.post_id then
                  some { cp with comment_count := some (jsNumOr0 cp.comment_count + 1) }
                else some cp
            | none => none
          comments := state.comments ++ [c] }
  | .updateComment commentId content =>
      { state with
          comments := state.comments.map (fun c =>
            if c.id = commentId then { c with content := content } else c) }
  | .deleteComment commentId =>
      { state with
          posts := decrementCommentCount state.comments commentId state.posts
          userPosts := decrementCommentCount state.comments commentId state.userPosts
          currentPost :=
            match state.comments.find? (fun c => decide (c.id = commentId)) with
            | some deletedComment =>
                match state.currentPost with
                | some cp =>
                    if cp.id = deletedComment.post_id then
                      some { cp with
                             comment_count := some (max (jsNumOr0 cp.comment_count - 1) 0) }
                    else some cp
                | none => none
            | none => state.currentPost
          comments := state.comments.filter (fun c => decide (c.id ≠ commentId)) }
  | .clearError => { state with error := none }
  | .clearCurrentPost => { state with currentPost := none, comments := [] }

/-- All post copies held by a snapshot: global feed, user feed and the
current-post slot. -/
def allPosts (s : PostsState) : List Post :=
  s.posts ++ s.userPosts ++ s.currentPost.toList

/-- The numeric like count of a post as the reducer reads it. -/
def lcVal (p : Post) : Int := jsNumOr0 p.like_count

/-- The numeric comment count of a post as the reducer reads it. -/
def ccVal (p : Post) : Int := jsNumOr0 p.comment_count

/-- The liked flag of a post under JS truthiness (undefined is falsy). -/
def likedVal (p : Post) : Bool := p.is_liked.getD false

/-- The mutable fields the cross-view invariant talks about, keyed by id. -/
def postKey (p : Post) : String × Int × Int × Bool :=
  (p.id, lcVal p, ccVal p, likedVal p)

/-- Cross-view consistency of a list of post copies: equal ids carry
equal mutable fields. -/
def consList (l : List Post) : Prop :=
  ∀ p ∈ l, ∀ q ∈ l, p.id = q.id → postKey p = postKey q

/-- Cross-view consistency of a snapshot over all three collections. -/
def mutConsistent (s : PostsState) : Prop :=
  consList (allPosts s)

/-- Like counts of every post copy in the snapshot, in order. -/
def likeCounts (s : PostsState) : List Int :=
  (allPosts s).map lcVal

/-! ## Content gateway (src/services/postsService.ts) -/

/-- An image asset as handed to `createPost` (only its presence and uri
matter to the embedded logic). -/
structure ImageAsset where
  uri : String
deriving DecidableEq, Repr

/-- `ImageUploadResult` of src/services/imageUploadService.ts. -/
structure ImageUploadResult where
  success : Bool
  url : Option String
deriving DecidableEq, Repr

/-- `uploadPostImage` of src/services/postsService.ts as a function of
the awaited `imageUploadService.uploadImage` outcome (`none` models the
call throwing): returns the url when `result.success && result.url` is
truthy, otherwise null. -/
def uploadPostImage (callResult : Option ImageUploadResult) : Option String :=
  match callResult with
  | some r =>
      if r.success then
        match r.url with
        | some u => if u = "" then none else some u
        | none => none
      else none
  | none => none

/-- `CreatePostData` of src/services/postsService.ts. -/
structure CreatePostData where
  title : Option String
  content : Option String
  category : Option String
  image : Option ImageAsset
deriving DecidableEq, Repr

/-- The row handed to `supabase.from("posts").insert(...)` in `createPost`. -/
structure InsertedPost where
  user_id : String
  title : Option String
  content : Option String
  image_url : Option String
  category : String
deriving DecidableEq, Repr

/-- Result of `createPost`: either an error value is returned with no
row inserted, or the row was inserted into the posts store. -/
inductive CreatePostOutcome where
  | failure (msg : String)
  | inserted (row : InsertedPost)
deriving DecidableEq, Repr

/-- The row inserted by a `createPost` outcome, if any. -/
def CreatePostOutcome.insertedRow : CreatePostOutcome → Option InsertedPost
  | .failure _ => none
  | .inserted row => some row

/-- `createPost` of src/services/postsService.ts as a function of the
authenticated user, the input and the awaited outcomes: `uploadOutcome`
is the `imageUploadService.uploadImage` result consumed by
`uploadPostImage` (consulted only when an image asset is present),
`insertError` the error of the insert call (`none` means the insert
succeeded).  The post-insert fetch from `posts_with_stats` is abstracted
away: it cannot undo the insert, and the claims only concern whether a
row was inserted.  Field defaulting (`|| null`, `|| "General"`) follows
the source. -/
def createPost (user : Option String) (postData : CreatePostData)
    (uploadOutcome : Option ImageUploadResult) (insertError : Option String) :
    CreatePostOutcome :=
  match user with
  | none => .failure "User not authenticated"
  | some uid =>
      let imageUrl : Option String :=
        match postData.image with
        | some _ => uploadPostImage uploadOutcome
        | none => none
      if jsFalsyStr postData.content ∧ imageUrl = none then
        .failure "Post must have either content or an image"
      else
        match insertError with
        | some e => .failure e
        | none =>
            .inserted
              { user_id := uid
                title := jsOrNullStr postData.title
                content := jsOrNullStr postData.content
                image_url := imageUrl
                category := jsOrStr postData.category "General" }

/-- The `{ isLiked, error }` result shape of `postsService.toggleLike`. -/
structure ToggleLikeResult where
  isLiked : Bool
  error : Option String
deriving DecidableEq, Repr

/-- `toggleLike` of src/services/postsService.ts as a function of the
awaited store outcomes: `checkError` is the error code of the
existing-like lookup (`"PGRST116"` = no rows), `existingLike` the id of
a found like row, `deleteError`/`insertError` the errors of the delete
and insert calls (each `none` on success). -/
def toggleLike (user : Option String) (checkError : Option String)
    (existingLike : Option String) (deleteError : Option String)
    (insertError : Option String) : ToggleLikeResult :=
  match user with
  | none => { isLiked := false, error := some "User not authenticated" }
  | some _ =>
      match checkError with
      | some code =>
          if code ≠ "PGRST116" then { isLiked := false, error := some code }
          else toggleLikeAct existingLike deleteError insertError
      | none => toggleLikeAct existingLike deleteError insertError
where
  /-- The act half of check-then-act: unlike when a row exists, else insert. -/
  toggleLikeAct (existingLike deleteError insertError : Option String) :
      ToggleLikeResult :=
    match existingLike with
    | some _ =>
        match deleteError with
        | some e => { isLiked := true, error := some e }
        | none => { isLiked := false, error := none }
    | none =>
        match insertError with
        | some e => { isLiked := false, error := some e }
        | none => { isLiked := true, error := none }

/-! ## Moderation service (src/services/geminiValidationService.ts) -/

/-- `ValidationResult` of src/services/geminiValidationService.ts. -/
structure ValidationResult where
  isValid : Bool
  isEcoRelated : Bool
  confidence : Rat
  reasons : List String
  suggestions : Option (List String)
  category : Option String
deriving DecidableEq, Repr

/-- `EcoRelevanceResult` of src/services/geminiValidationService.ts. -/
structure EcoRelevanceResult where
  isEcoRelated : Bool
  confidence : Rat
  category : String
  reasoning : String
deriving DecidableEq, Repr

/-- `ContentModerationResult` of src/services/geminiValidationService.ts. -/
structure ContentModerationResult where
  isAppropriate : Bool
  confidence : Rat
  violations : List String
  reasoning : String
deriving DecidableEq, Repr

/-- The JSON object parsed from the eco-relevance model response; each
field may be missing. -/
structure EcoParsed where
  isEcoRelated : Option Bool
  confidence : Option Rat
  category : Option String
  reasoning : Option String
deriving DecidableEq, Repr

/-- The JSON object parsed from the moderation model response. -/
structure ModParsed where
  isAppropriate : Option Bool
  confidence : Option Rat
  violations : Option (List String)
  reasoning : Option String
deriving DecidableEq, Repr

/-- Contiguous-occurrence check on character lists, by scanning. -/
def jsIncludesAux (pat : List Char) : List Char → Bool
  | [] => pat.isPrefixOf ([] : List Char)
  | c :: rest => pat.isPrefixOf (c :: rest) || jsIncludesAux pat rest

/-- JS `fullText.includes(keyword)` on a lowercased text held as its
character sequence: substring containment. -/
def jsIncludes (s : List Char) (pat : String) : Bool :=
  jsIncludesAux pat.toList s

/-- JS `text.toLowerCase()`, as a character sequence. -/
def jsToLower (s : String) : List Char :=
  s.toList.map Char.toLower

/-- The template literal `${title} ${content}` with `title` possibly
undefined (JS interpolates the string "undefined"). -/
def titleContentText (title : Option String) (content : String) : String :=
  (match title with | some t => t | none => "undefined") ++ " " ++ content

/-- `ecoKeywords` of the `checkEcoRelevance` fallback. -/
def ecoKeywords : List String :=
  ["environment", "eco", "green", "sustainable", "climate", "nature",
   "renewable", "recycl", "conservation", "organic", "solar", "waste",
   "carbon", "biodiversity", "pollution", "clean energy", "tree", "plant"]

/-- `inappropriateKeywords` of the `checkContentModeration` fallback. -/
def inappropriateKeywords : List String :=
  ["hate", "kill", "die", "stupid", "idiot", "fuck", "shit", "damn"]

/-- `Math.max(0, Math.min(1, parsed.confidence || 0))`. -/
def clampConfidence (x : Option Rat) : Rat :=
  max 0 (min 1 (x.getD 0))

/-- `checkEcoRelevance` of src/services/geminiValidationService.ts as a
function of the awaited model-call outcome: `some parsed` is a response
whose text parsed as JSON; `none` models a call that throws, times out,
or returns text `JSON.parse` rejects, taking the keyword-fallback path. -/
def checkEcoRelevance (content : String) (title category : Option String)
    (outcome : Option EcoParsed) : EcoRelevanceResult :=
  match outcome with
  | some parsed =>
      { isEcoRelated := parsed.isEcoRelated.getD false
        confidence := clampConfidence parsed.confidence
        category := jsOrStr parsed.category "General"
        reasoning := jsOrStr parsed.reasoning "No reasoning provided" }
  | none =>
      let fullText := jsToLower (titleContentText title content)
      let hasEcoKeywords := ecoKeywords.any (fun keyword => jsIncludes fullText keyword)
      { isEcoRelated := hasEcoKeywords
        confidence := if hasEcoKeywords then 0.6 else 0.3
        category := if hasEcoKeywords then "General" else "Not Eco-Related"
        reasoning := "Fallback keyword analysis due to API error" }

/-- `checkContentModeration` of src/services/geminiValidationService.ts,
same outcome convention as `checkEcoRelevance`. -/
def checkContentModeration (content : String) (title : Option String)
    (outcome : Option ModParsed) : ContentModerationResult :=
  match outcome with
  | some parsed =>
      { isAppropriate := parsed.isAppropriate.getD false
        confidence := clampConfidence parsed.confidence
        violations := parsed.violations.getD []
        reasoning := jsOrStr parsed.reasoning "No reasoning provided" }
  | none =>
      let fullText := jsToLower (titleContentText title content)
      let hasInappropriate :=
        inappropriateKeywords.any (fun keyword => jsIncludes fullText keyword)
      { isAppropriate := !hasInappropriate
        confidence := 0.5
        violations :=
          if hasInappropriate then ["Potentially inappropriate language detected"] else []
        reasoning := "Fallback keyword analysis due to API error" }

/-- `generateSuggestions` of src/services/geminiValidationService.ts:
outer `none` models the call throwing (static fallback list); `some none`
a response that parsed but was not an array (`[]`); `some (some l)` a
parsed array. -/
def generateSuggestions (outcome : Option (Option (List String))) : List String :=
  match outcome with
  | some (some suggestions) => suggestions
  | some none => []
  | none =>
      ["Focus on environmental or sustainability topics",
       "Share positive eco-friendly experiences or tips",
       "Use respectful language that builds community"]

/-- `validatePostContent` of src/services/geminiValidationService.ts as a
function of the three awaited model-call outcomes.  The outer catch
(permissive `isValid := true`, confidence 0.1) is unreachable through
these calls: both checks and the suggestion generator catch their own
errors and return fallback values instead of rethrowing, so it is not
modelled as an input. -/
def validatePostContent (content : String) (title category : Option String)
    (ecoOutcome : Option EcoParsed) (modOutcome : Option ModParsed)
    (sugOutcome : Option (Option (List String))) : ValidationResult :=
  let ecoCheck := checkEcoRelevance content title category ecoOutcome
  let moderationCheck := checkContentModeration content title modOutcome
  let isValid := ecoCheck.isEcoRelated && moderationCheck.isAppropriate
  let reasons :=
    (if ecoCheck.isEcoRelated then []
     else ["Content is not related to environment or sustainability ("
             ++ ecoCheck.reasoning ++ ")"])
    ++ (if moderationCheck.isAppropriate then [] else moderationCheck.violations)
  { isValid := isValid
    isEcoRelated := ecoCheck.isEcoRelated
    confidence := min ecoCheck.confidence moderationCheck.confidence
    reasons := reasons
    category := some ecoCheck.category
    suggestions := if isValid then none else some (generateSuggestions sugOutcome) }

/-! ## Invariant machinery for the reducer -/

instance (l : List Post) : Decidable (consList l) := by
  unfold consList; infer_instance

instance (s : PostsState) : Decidable (mutConsistent s) := by
  unfold mutConsistent; infer_instance

/-- The four mutating transitions named by the cross-view invariant,
with updates that do not rewrite a post's identifier to a different
value. -/
def benignAct : PostsAction → Prop
  | .updatePost postId updates => updates.id = none ∨ updates.id = some postId
  | .toggleLike _ _ _ => True
  | .addComment _ => True
  | .deleteComment _ => True
  | _ => False

instance (a : PostsAction) : Decidable (benignAct a) := by
  cases a <;> (unfold benignAct; infer_instance)

lemma allPosts_updatePost (s : PostsState) (pid : String) (u : PostUpdates) :
    allPosts (postsReducer s (.updatePost pid u)) =
      (allPosts s).map (updatePostFun pid u) := by
  cases hcp : s.currentPost with
  | none => simp [allPosts, postsReducer, updatePosts, hcp]
  | some cp =>
      by_cases h : cp.id = pid <;>
        simp [allPosts, postsReducer, updatePosts, updatePostFun, hcp, h]

lemma allPosts_toggleLike (s : PostsState) (pid : String) (liked : Bool) (d : Int) :
    allPosts (postsReducer s (.toggleLike pid liked d)) =
      (allPosts s).map (toggleLikeFun pid liked d) := by
  cases hcp : s.currentPost with
  | none => simp [allPosts, postsReducer, toggleLikePosts, hcp]
  | some cp =>
      by_cases h : cp.id = pid <;>
        simp [allPosts, postsReducer, toggleLikePosts, toggleLikeFun, hcp, h]

lemma allPosts_addComment (s : PostsState) (c : Comment) :
    allPosts (postsReducer s (.addComment c)) =
      (allPosts s).map (incCommentFun c.post_id) := by
  cases hcp : s.currentPost with
  | none => simp [allPosts, postsReducer, incrementCommentCount, hcp]
  | some cp =>
      by_cases h : cp.id = c.post_id <;>
        simp [allPosts, postsReducer, incrementCommentCount, incCommentFun, hcp, h]

lemma allPosts_deleteComment (s : PostsState) (cid : String) :
    allPosts (postsReducer s (.deleteComment cid)) =
      (allPosts s).map (decCommentFun s.comments cid) := by
  cases hcp : s.currentPost with
  | none =>
      cases hf : s.comments.find? (fun c => decide (c.id = cid)) with
      | none => simp [allPosts, postsReducer, decrementCommentCount, decCommentFun, hcp, hf]
      | some dc => simp [allPosts, postsReducer, decrementCommentCount, decCommentFun, hcp, hf]
  | some cp =>
      cases hf : s.comments.find? (fun c => decide (c.id = cid)) with
      | none => simp [allPosts, postsReducer, decrementCommentCount, decCommentFun, hcp, hf]
      | some dc =>
          by_cases h : cp.id = dc.post_id <;>
            simp [allPosts, postsReducer, decrementCommentCount, decCommentFun, hcp, hf, h]

lemma consList_map (f : Post → Post) (hid : ∀ p, (f p).id = p.id)
    (hk : ∀ p q, postKey p = postKey q → postKey (f p) = postKey (f q))
    (l : List Post) (hc : consList l) : consList (l.map f) := by
  intro p' hp' q' hq' hpq
  rcases List.mem_map.1 hp' with ⟨p, hp, rfl⟩
  rcases List.mem_map.1 hq' with ⟨q, hq, rfl⟩
  refine hk p q (hc p hp q hq ?_)
  rw [hid p, hid q] at hpq
  exact hpq

lemma postKey_parts {p q : Post} (h : postKey p = postKey q) :
    p.id = q.id ∧ lcVal p = lcVal q ∧ ccVal p = ccVal q ∧ likedVal p = likedVal q := by
  simpa [postKey, Prod.ext_iff] using h

lemma updatePostFun_id (pid : String) (u : PostUpdates)
    (hb : u.id = none ∨ u.id = some pid) (p : Post) :
    (updatePostFun pid u p).id = p.id := by
  unfold updatePostFun
  by_cases h : p.id = pid
  · rcases hb with hb | hb <;> simp [h, mergePost, hb]
  · simp [h]

lemma updatePostFun_key (pid : String) (u : PostUpdates)
    (hb : u.id = none ∨ u.id = some pid) (p q : Post)
    (hk : postKey p = postKey q) :
    postKey (updatePostFun pid u p) = postKey (updatePostFun pid u q) := by
  obtain ⟨hid, hlc, hcc, hlk⟩ := postKey_parts hk
  unfold updatePostFun
  by_cases h : p.id = pid
  · have h2 : q.id = pid := hid ▸ h
    simp only [h, h2, if_pos]
    refine Prod.ext ?_ (Prod.ext ?_ (Prod.ext ?_ ?_)) <;>
      simp [mergePost, postKey, lcVal, ccVal, likedVal]
    · rcases hb with hb | hb <;> simp [hb, hid]
    · cases u.like_count with
      | none => simpa [lcVal] using hlc
      | some v => rfl
    · cases u.comment_count with
      | none => simpa [ccVal] using hcc
      | some v => rfl
    · cases u.is_liked with
      | none => simpa [likedVal] using hlk
      | some v => rfl
  · have h2 : ¬ q.id = pid := fun hq => h (by rw [hid, hq])
    simp only [h, h2, if_neg, ite_false]
    exact hk

lemma toggleLikeFun_id (pid : String) (liked : Bool) (d : Int) (p : Post) :
    (toggleLikeFun pid liked d p).id = p.id := by
  unfold toggleLikeFun; split <;> rfl

lemma toggleLikeFun_key (pid : String) (liked : Bool) (d : Int) (p q : Post)
    (hk : postKey p = postKey q) :
    postKey (toggleLikeFun pid liked d p) = postKey (toggleLikeFun pid liked d q) := by
  obtain ⟨hid, hlc, hcc, hlk⟩ := postKey_parts hk
  simp only [lcVal, jsNumOr0] at hlc
  simp only [ccVal, jsNumOr0] at hcc
  simp only [likedVal] at hlk
  unfold toggleLikeFun
  by_cases h : p.id = pid
  · have h2 : q.id = pid := hid ▸ h
    simp [h, h2, postKey, lcVal, ccVal, likedVal, jsNumOr0, hid, hlc, hcc, hlk]
  · have h2 : ¬ q.id = pid := fun hq => h (by rw [hid, hq])
    simp only [h, h2, if_neg, ite_false]
    exact hk

lemma incCommentFun_id (pid : String) (p : Post) :
    (incCommentFun pid p).id = p.id := by
  unfold incCommentFun; split <;> rfl

lemma incCommentFun_key (pid : String) (p q : Post)
    (hk : postKey p = postKey q) :
    postKey (incCommentFun pid p) = postKey (incCommentFun pid q) := by
  obtain ⟨hid, hlc, hcc, hlk⟩ := postKey_parts hk
  simp only [lcVal, jsNumOr0] at hlc
  simp only [ccVal, jsNumOr0] at hcc
  simp only [likedVal] at hlk
  unfold incCommentFun
  by_cases h : p.id = pid
  · have h2 : q.id = pid := hid ▸ h
    simp [h, h2, postKey, lcVal, ccVal, likedVal, jsNumOr0, hid, hlc, hcc, hlk]
  · have h2 : ¬ q.id = pid := fun hq => h (by rw [hid, hq])
    simp only [h, h2, if_neg, ite_false]
    exact hk

lemma decCommentFun_id (comments : List Comment) (cid : String) (p : Post) :
    (decCommentFun comments cid p).id = p.id := by
  cases hf : comments.find? (fun c => decide (c.id = cid)) with
  | none => simp [decCommentFun, hf]
  | some dc => by_cases h : p.id = dc.post_id <;> simp [decCommentFun, hf, h]

lemma decCommentFun_key (comments : List Comment) (cid : String) (p q : Post)
    (hk : postKey p = postKey q) :
    postKey (decCommentFun comments cid p) = postKey (decCommentFun comments cid q) := by
  obtain ⟨hid, hlc, hcc, hlk⟩ := postKey_parts hk
  simp only [lcVal, jsNumOr0] at hlc
  simp only [ccVal, jsNumOr0] at hcc
  simp only [likedVal] at hlk
  cases hf : comments.find? (fun c => decide (c.id = cid)) with
  | none => simpa [decCommentFun, hf] using hk
  | some dc =>
      by_cases h : p.id = dc.post_id
      · have h2 : q.id = dc.post_id := hid ▸ h
        simp [decCommentFun, hf, h, h2, postKey, lcVal, ccVal, likedVal, jsNumOr0,
              hid, hlc, hcc, hlk]
      · have h2 : ¬ q.id = dc.post_id := fun hq => h (by rw [hid, hq])
        simpa [decCommentFun, hf, h, h2] using hk

/-- One benign transition preserves cross-view consistency. -/
lemma consStep (s : PostsState) (a : PostsAction)
    (hb : benignAct a) (hc : mutConsistent s) :
    mutConsistent (postsReducer s a) := by
  cases a with
  | updatePost pid u =>
      rw [mutConsistent, allPosts_updatePost]
      exact consList_map _ (updatePostFun_id pid u hb) (updatePostFun_key pid u hb) _ hc
  | toggleLike pid liked d =>
      rw [mutConsistent, allPosts_toggleLike]
      exact consList_map _ (toggleLikeFun_id pid liked d) (toggleLikeFun_key pid liked d) _ hc
  | addComment c =>
      rw [mutConsistent, allPosts_addComment]
      exact consList_map _ (incCommentFun_id c.post_id) (incCommentFun_key c.post_id) _ hc
  | deleteComment cid =>
      rw [mutConsistent, allPosts_deleteComment]
      exact consList_map _ (decCommentFun_id s.comments cid) (decCommentFun_key s.comments cid) _ hc
  | setLoading b => simp [benignAct] at hb
  | setRefreshing b => simp [benignAct] at hb
  | setError e => simp [benignAct] at hb
  | setPosts ps => simp [benignAct] at hb
  | setUserPosts ps => simp [benignAct] at hb
  | setCurrentPost p => simp [benignAct] at hb
  | setComments cs => simp [benignAct] at hb
  | addPost p => simp [benignAct] at hb
  | deletePost pid => simp [benignAct] at hb
  | updateComment cid content => simp [benignAct] at hb
  | clearError => simp [benignAct] at hb
  | clearCurrentPost => simp [benignAct] at hb

/-! ## Concrete fixtures used by counterexamples and witnesses -/

/-- A concrete post with the given id, counts and liked flag. -/
def samplePost (id : String) (lc cc : Int) (liked : Bool) : Post :=
  { id := id, user_id := "u1", title := none, content := none, image_url := none
    category := "General", created_at := "t0", updated_at := "t0"
    like_count := some lc, comment_count := some cc
    user_email := none, user_name := none, is_liked := some liked }

/-- A concrete comment on post `pid`. -/
def sampleComment (id pid : String) : Comment :=
  { id := id, post_id := pid, user_id := "u1", content := "hi"
    created_at := "t0", updated_at := "t0", user_email := none, user_name := none }

/-- A consistent snapshot: post p1 (counts 0) in all three collections,
post p2 (counts 1) in the global feed, one comment on p1. -/
def sampleState : PostsState :=
  { posts := [samplePost "p1" 0 0 false, samplePost "p2" 1 1 false]
    userPosts := [samplePost "p1" 0 0 false]
    currentPost := some (samplePost "p1" 0 0 false)
    comments := [sampleComment "c1" "p1"]
    loading := false, error := none, refreshing := false }

/-! ## Claims -/

/-- Claim C1, counterexample: the UPDATE_POST transition accepts any
`Partial<Post>` payload, including one that rewrites the matched post's
`id`.  Rewriting p1's id to "p2" makes the renamed copy collide with the
distinct post p2 (like_count 1) while carrying like_count 0, so a
snapshot consistent across all collections becomes inconsistent after a
single one of the four named transitions. -/
theorem claim1_cex :
    mutConsistent sampleState ∧
      ¬ mutConsistent (postsReducer sampleState
          (PostsAction.updatePost "p1" { noUpdates with id := some "p2" })) := by
  constructor <;> decide

/-- Claim C1 (amended): for every snapshot in which a post carries
identical like_count, comment_count and is_liked (as the reducer reads
them, `|| 0` and truthiness included) in every collection where it
appears, after any sequence of UPDATE_POST, TOGGLE_LIKE, ADD_COMMENT and
DELETE_COMMENT transitions whose UPDATE_POST payloads do not rewrite the
post identifier to a different value, the post still carries identical
mutable fields in every collection, after each individual transition
(the conclusion holds for every prefix, each prefix being an instance of
the quantified action list). -/
theorem claim1_thm (s : PostsState) (acts : List PostsAction)
    (hb : ∀ a ∈ acts, benignAct a) (hc : mutConsistent s) :
    mutConsistent (acts.foldl postsReducer s) := by
  induction acts generalizing s with
  | nil => exact hc
  | cons a rest ih =>
      simp only [List.foldl_cons]
      exact ih (postsReducer s a)
        (fun x hx => hb x (List.mem_cons_of_mem a hx))
        (consStep s a (hb a (List.mem_cons_self a rest)) hc)

/-- Claim C1, witness: the amended preservation theorem applied to the
concrete consistent snapshot and a sequence of all four transition
kinds. -/
theorem claim1_witness :
    mutConsistent
      (List.foldl postsReducer sampleState
        [PostsAction.toggleLike "p1" true 1,
         PostsAction.addComment (sampleComment "c2" "p1"),
         PostsAction.updatePost "p1" { noUpdates with like_count := some (some 7) },
         PostsAction.deleteComment "c1"]) :=
  claim1_thm sampleState _ (by decide) (by decide)

/-- Claim C2, counterexample: TOGGLE_LIKE adds the delta to
`(post.like_count || 0)` with no floor, so on a snapshot whose post p1
has like_count 0 the transition `likeToggled("p1", false, -1)` drives
the like_count of p1 to -1 in the global feed, the user feed and the
current-post slot — the resulting snapshot violates the claimed
non-negativity. -/
theorem claim2_cex :
    ¬ ∀ p ∈ allPosts (postsReducer sampleState (PostsAction.toggleLike "p1" false (-1))),
        0 ≤ lcVal p := by
  decide

/-- Claim C2 (amended): a `likeToggled(postId, isLiked, delta)` transition
sets the like_count of every copy of the matched post, in every
collection, to exactly `(old || 0) + delta`, with no floor at zero —
unlike the comment-count decrement, the result is negative whenever the
old count is 0 and delta is -1; unmatched posts keep their count. -/
theorem claim2_thm (s : PostsState) (pid : String) (liked : Bool) (d : Int) :
    likeCounts (postsReducer s (PostsAction.toggleLike pid liked d)) =
      (allPosts s).map (fun p => if p.id = pid then lcVal p + d else lcVal p) := by
  unfold likeCounts
  rw [allPosts_toggleLike, List.map_map]
  refine List.map_congr_left ?_
  intro p _
  by_cases h : p.id = pid <;>
    simp [Function.comp, toggleLikeFun, h, lcVal, jsNumOr0]

/-- Claim C6: toggling a like on (`+1`) and immediately off (`-1`) for the
same post restores every collection's like counts (as the reducer reads
them, `|| 0` included) to their pre-toggle values exactly. -/
theorem claim6_thm (s : PostsState) (pid : String) :
    likeCounts (postsReducer (postsReducer s (PostsAction.toggleLike pid true 1))
        (PostsAction.toggleLike pid false (-1))) = likeCounts s := by
  unfold likeCounts
  rw [allPosts_toggleLike, allPosts_toggleLike, List.map_map, List.map_map]
  refine List.map_congr_left ?_
  intro p _
  by_cases h : p.id = pid
  · simp [Function.comp, toggleLikeFun, h, lcVal, jsNumOr0]
  · simp [Function.comp, toggleLikeFun, h]

lemma decCommentFun_eq_or_nonneg (comments : List Comment) (cid : String) (p : Post) :
    decCommentFun comments cid p = p ∨ 0 ≤ ccVal (decCommentFun comments cid p) := by
  cases hf : comments.find? (fun c => decide (c.id = cid)) with
  | none => left; simp [decCommentFun, hf]
  | some dc =>
      by_cases h : p.id = dc.post_id
      · right
        simp only [decCommentFun, hf, h, if_pos, ccVal, jsNumOr0]
        exact le_max_right _ 0
      · left; simp [decCommentFun, hf, h]

lemma deleteComment_seq_nonneg (s : PostsState) (cids : List String) :
    ∀ p ∈ allPosts
        (cids.foldl (fun st cid => postsReducer st (PostsAction.deleteComment cid)) s),
      0 ≤ ccVal p ∨ p ∈ allPosts s := by
  induction cids generalizing s with
  | nil => exact fun p hp => Or.inr hp
  | cons cid rest ih =>
      intro p hp
      simp only [List.foldl_cons] at hp
      rcases ih (postsReducer s (PostsAction.deleteComment cid)) p hp with h | h
      · exact Or.inl h
      · rw [allPosts_deleteComment] at h
        rcases List.mem_map.1 h with ⟨q, hq, rfl⟩
        rcases decCommentFun_eq_or_nonneg s.comments cid q with he | hn
        · rw [he]; exact Or.inr hq
        · exact Or.inl hn

lemma deleteComment_absent_noop (s : PostsState) :
    ∀ cid, (∀ c ∈ s.comments, c.id ≠ cid) →
      postsReducer s (PostsAction.deleteComment cid) = s := by
  intro cid habs
  have hf : s.comments.find? (fun c => decide (c.id = cid)) = none := by
    rw [List.find?_eq_none]
    intro c hc
    simpa using habs c hc
  have hfun : ∀ p, decCommentFun s.comments cid p = p := by
    intro p
    simp [decCommentFun, hf]
  have hmap : ∀ l : List Post, List.map (decCommentFun s.comments cid) l = l := by
    intro l
    induction l with
    | nil => rfl
    | cons a t ih => simp [hfun a, ih]
  have hflt : s.comments.filter (fun c => decide (c.id ≠ cid)) = s.comments := by
    rw [List.filter_eq_self]
    intro c hc
    simpa using habs c hc
  cases s with
  | mk posts userPosts currentPost comments loading error refreshing =>
      simp only at hf hfun hmap hflt
      simp [postsReducer, decrementCommentCount, hf, hflt, hmap]
      intro a ha
      exact habs a ha

/-- Claim C5: a sequence of DELETE_COMMENT transitions never drives a
comment count below zero — every post copy in the resulting snapshot
either has a non-negative comment count or is an untouched post copy of
the starting snapshot (so the transitions introduce no negative count,
in any collection, in any call order); and deleting an identifier absent
from the comment thread leaves the snapshot unchanged entirely (the
decrement floors at `Math.max(.. - 1, 0)`). -/
theorem claim5_thm (s : PostsState) (cids : List String) :
    (∀ p ∈ allPosts
        (cids.foldl (fun st cid => postsReducer st (PostsAction.deleteComment cid)) s),
      0 ≤ ccVal p ∨ p ∈ allPosts s) ∧
    (∀ cid, (∀ c ∈ s.comments, c.id ≠ cid) →
      postsReducer s (PostsAction.deleteComment cid) = s) :=
  ⟨deleteComment_seq_nonneg s cids, deleteComment_absent_noop s⟩

/-- Claim C5, witness: on the concrete snapshot, twice deleting comment
c1 (the second deletion hitting an already-removed identifier) leaves
the current-post copy of p1 with a non-negative comment count, and
deleting the absent identifier zz is an exact no-op. -/
theorem claim5_witness :
    (0 ≤ ccVal (samplePost "p1" 0 0 false)
      ∨ (samplePost "p1" 0 0 false) ∈ allPosts sampleState) ∧
    postsReducer sampleState (PostsAction.deleteComment "zz") = sampleState :=
  ⟨(claim5_thm sampleState ["c1", "c1"]).1 (samplePost "p1" 0 0 false) (by decide),
   (claim5_thm sampleState []).2 "zz" (by decide)⟩

/-- Claim C8: CLEAR_CURRENT_POST always sets the current-post slot to
null and the comment thread to the empty list, touching nothing else —
in particular it is a safe no-op on those fields when no current post is
set — and applying it twice yields the same snapshot as applying it
once. -/
theorem claim8_thm (s : PostsState) :
    postsReducer s PostsAction.clearCurrentPost
        = { s with currentPost := none, comments := [] } ∧
    postsReducer (postsReducer s PostsAction.clearCurrentPost) PostsAction.clearCurrentPost
        = postsReducer s PostsAction.clearCurrentPost :=
  ⟨rfl, rfl⟩

/-- Claim C9: DELETE_POST leaves the `comments` field unchanged in every
case, including when it clears a matching current-post slot to null, so
a snapshot with a null current post and a non-empty comment thread is
reachable by deleting the currently viewed post (witnessed by the
concrete snapshot in the third conjunct). -/
theorem claim9_thm :
    (∀ (s : PostsState) (pid : String),
        (postsReducer s (PostsAction.deletePost pid)).comments = s.comments) ∧
    (∀ (s : PostsState) (p : Post), s.currentPost = some p →
        (postsReducer s (PostsAction.deletePost p.id)).currentPost = none) ∧
    (∃ (s : PostsState) (p : Post), s.currentPost = some p ∧
        (postsReducer s (PostsAction.deletePost p.id)).currentPost = none ∧
        (postsReducer s (PostsAction.deletePost p.id)).comments ≠ []) := by
  refine ⟨fun s pid => rfl, fun s p h => by simp [postsReducer, h], ?_⟩
  exact ⟨sampleState, samplePost "p1" 0 0 false, by decide, by decide, by decide⟩

/-- Claim C9, witness: the frame and slot-clearing conjuncts applied to
the concrete snapshot, whose comment thread survives deleting the
currently viewed post p1. -/
theorem claim9_witness :
    (postsReducer sampleState (PostsAction.deletePost "p1")).comments
        = sampleState.comments ∧
    (postsReducer sampleState
        (PostsAction.deletePost (samplePost "p1" 0 0 false).id)).currentPost = none :=
  ⟨claim9_thm.1 sampleState "p1",
   claim9_thm.2.1 sampleState (samplePost "p1" 0 0 false) rfl⟩

/-- Claim C10: ADD_COMMENT appends the comment to the thread
unconditionally — also when the current-post slot is null or holds a
post with a different id — while incrementing comment_count only on
posts whose id equals the comment's post_id (matched copies, in feeds
and the current-post slot, gain exactly 1; unmatched copies are kept
unchanged). -/
theorem claim10_thm (s : PostsState) (c : Comment) :
    (postsReducer s (PostsAction.addComment c)).comments = s.comments ++ [c] ∧
    (s.currentPost = none →
      (postsReducer s (PostsAction.addComment c)).currentPost = none) ∧
    (∀ p, s.currentPost = some p → p.id ≠ c.post_id →
      (postsReducer s (PostsAction.addComment c)).currentPost = some p) ∧
    (∀ p, s.currentPost = some p → p.id = c.post_id →
      (postsReducer s (PostsAction.addComment c)).currentPost
        = some { p with comment_count := some (jsNumOr0 p.comment_count + 1) }) ∧
    (∀ p ∈ s.posts, p.id ≠ c.post_id →
      p ∈ (postsReducer s (PostsAction.addComment c)).posts) ∧
    (∀ p ∈ s.posts, p.id = c.post_id →
      { p with comment_count := some (jsNumOr0 p.comment_count + 1) }
        ∈ (postsReducer s (PostsAction.addComment c)).posts) ∧
    (∀ p ∈ s.userPosts, p.id ≠ c.post_id →
      p ∈ (postsReducer s (PostsAction.addComment c)).userPosts) ∧
    (∀ p ∈ s.userPosts, p.id = c.post_id →
      { p with comment_count := some (jsNumOr0 p.comment_count + 1) }
        ∈ (postsReducer s (PostsAction.addComment c)).userPosts) := by
  refine ⟨rfl, ?_, ?_, ?_, ?_, ?_, ?_, ?_⟩
  · intro h; simp [postsReducer, h]
  · intro p h hne; simp [postsReducer, h, hne]
  · intro p h he; simp [postsReducer, h, he]
  · intro p hp hne
    have := List.mem_map_of_mem (incCommentFun c.post_id) hp
    simpa [postsReducer, incrementCommentCount, incCommentFun, hne] using this
  · intro p hp he
    have := List.mem_map_of_mem (incCommentFun c.post_id) hp
    simpa [postsReducer, incrementCommentCount, incCommentFun, he] using this
  · intro p hp hne
    have := List.mem_map_of_mem (incCommentFun c.post_id) hp
    simpa [postsReducer, incrementCommentCount, incCommentFun, hne] using this
  · intro p hp he
    have := List.mem_map_of_mem (incCommentFun c.post_id) hp
    simpa [postsReducer, incrementCommentCount, incCommentFun, he] using this

/-- Claim C10, witness: on a snapshot whose current post is p1, adding a
comment for the absent post id p9 appends it to the thread while the
current-post slot keeps p1 untouched; a comment for p1 increments p1's
count in the global feed. -/
theorem claim10_witness :
    (postsReducer sampleState (PostsAction.addComment (sampleComment "c9" "p9"))).comments
        = sampleState.comments ++ [sampleComment "c9" "p9"] ∧
    (postsReducer sampleState (PostsAction.addComment (sampleComment "c9" "p9"))).currentPost
        = some (samplePost "p1" 0 0 false) ∧
    { samplePost "p1" 0 0 false with
        comment_count := some (jsNumOr0 (samplePost "p1" 0 0 false).comment_count + 1) }
      ∈ (postsReducer sampleState (PostsAction.addComment (sampleComment "c2" "p1"))).posts :=
  ⟨(claim10_thm sampleState (sampleComment "c9" "p9")).1,
   (claim10_thm sampleState (sampleComment "c9" "p9")).2.2.1
     (samplePost "p1" 0 0 false) rfl (by decide),
   (claim10_thm sampleState (sampleComment "c2" "p1")).2.2.2.2.2.1
     (samplePost "p1" 0 0 false) (by decide) rfl⟩

/-- A submission with non-empty text content and an image asset. -/
def samplePostData : CreatePostData :=
  { title := none, content := some "Planted trees", category := none
    image := some { uri := "img.jpg" } }

/-- A failed object-storage upload outcome. -/
def failedUpload : Option ImageUploadResult := some { success := false, url := none }

/-- Claim C3, counterexample: with non-empty text content and an image
whose upload to object storage fails (`uploadPostImage` yields null),
`createPost` does not abort — it inserts an image-less post row built
from the text content, so the submission is partially created. -/
theorem claim3_cex :
    uploadPostImage failedUpload = none ∧
    createPost (some "u1") samplePostData failedUpload none
      = CreatePostOutcome.inserted
          { user_id := "u1", title := none, content := some "Planted trees"
            image_url := none, category := "General" } := by
  constructor <;> decide

/-- Claim C3 (amended): when an image asset is present and its upload
fails, `createPost` aborts with a recoverable error and inserts no row
only if the submission's text content is also empty or absent; if the
text content is non-empty, creation proceeds and an image-less post row
built from the text fields is inserted. -/
theorem claim3_thm (uid : String) (pd : CreatePostData)
    (up : Option ImageUploadResult)
    (himg : pd.image ≠ none) (hup : uploadPostImage up = none) :
    (jsFalsyStr pd.content = true →
      createPost (some uid) pd up none
        = CreatePostOutcome.failure "Post must have either content or an image") ∧
    (jsFalsyStr pd.content = false →
      createPost (some uid) pd up none
        = CreatePostOutcome.inserted
            { user_id := uid, title := jsOrNullStr pd.title
              content := jsOrNullStr pd.content, image_url := none
              category := jsOrStr pd.category "General" }) := by
  rcases hpi : pd.image with _ | a
  · exact absurd hpi himg
  · constructor <;> intro h <;> simp [createPost, hpi, hup, h]

/-- Claim C3, witness: the amended characterization applied to the
concrete failed-upload submission, in both the empty-content and the
non-empty-content case. -/
theorem claim3_witness :
    createPost (some "u1") { samplePostData with content := none } failedUpload none
      = CreatePostOutcome.failure "Post must have either content or an image" ∧
    createPost (some "u1") samplePostData failedUpload none
      = CreatePostOutcome.inserted
          { user_id := "u1", title := none, content := some "Planted trees"
            image_url := none, category := "General" } :=
  ⟨(claim3_thm "u1" { samplePostData with content := none } failedUpload
      (by decide) (by decide)).1 (by decide),
   (claim3_thm "u1" samplePostData failedUpload
      (by decide) (by decide)).2 (by decide)⟩

/-- Claim C4, counterexample: when no existing like row is found and the
subsequent insert is rejected (Postgres unique_violation code 23505 from
the store's uniqueness constraint on (post, user)), `toggleLike` returns
`isLiked: false` together with the error — a hard failure reported as
not-liked, not an "already liked" success. -/
theorem claim4_cex :
    (toggleLike (some "u1") none none none (some "23505")).isLiked = false ∧
    (toggleLike (some "u1") none none none (some "23505")).error = some "23505" := by
  constructor <;> decide

/-- Claim C4 (amended): when `toggleLike` finds no existing like row and
the insert fails with any store error — a uniqueness violation included —
the caller receives `{ isLiked: false, error }`: the error is surfaced
as a hard failure and the state is reported as not liked, whether the
lookup ended with the no-rows code PGRST116 or with no error. -/
theorem claim4_thm (uid e : String) :
    toggleLike (some uid) none none none (some e)
      = { isLiked := false, error := some e } ∧
    toggleLike (some uid) (some "PGRST116") none none (some e)
      = { isLiked := false, error := some e } := by
  constructor
  · rfl
  · simp [toggleLike, toggleLike.toggleLikeAct]

/-- Claim C7, counterexample: both AI calls failing (timeout, throw, or
a response `JSON.parse` rejects — every such failure lands in the same
per-check catch) does not make `validatePostContent` approve.  On the
text "hello world", which contains no eco keyword, the eco-relevance
catch takes its keyword fallback and reports not eco-related, so the
result has `isValid = false` and `isEcoRelated = false`, the fallback
confidence `min 0.3 0.5 = 0.3`, and the not-eco rejection reason built
from the fallback's reasoning string — adapter unavailability blocks
this submission, refuting the claimed unconditional approval.  (The
outer catch that would return `isValid = true` at confidence 0.1 is
unreachable for adapter failures: both checks and the suggestion
generator catch their own errors and return fallback values instead of
rethrowing.) -/
theorem claim7_cex :
    (validatePostContent "hello world" none none none none none).isValid = false ∧
    (validatePostContent "hello world" none none none none none).isEcoRelated = false ∧
    (validatePostContent "hello world" none none none none none).confidence = 0.3 ∧
    (validatePostContent "hello world" none none none none none).reasons
      = ["Content is not related to environment or sustainability (Fallback keyword analysis due to API error)"] := by
  have hEco : ecoKeywords.any
      (fun keyword => jsIncludes (jsToLower (titleContentText none "hello world")) keyword)
      = false := by decide
  have hBad : inappropriateKeywords.any
      (fun keyword => jsIncludes (jsToLower (titleContentText none "hello world")) keyword)
      = false := by decide
  refine ⟨by decide, by decide, ?_, by decide⟩
  simp [validatePostContent, checkEcoRelevance, checkContentModeration, hEco, hBad, min_def]
  norm_num

/-- Claim C7 (amended): when the moderation adapter is unavailable for
both checks, `validatePostContent` does not approve unconditionally:
each check falls back to a keyword heuristic over the lowercased
"title content" text, the result approves exactly when some eco keyword
occurs and no inappropriate keyword occurs, `isEcoRelated` is exactly
the eco-keyword hit, and the confidence is the reduced fallback value
(min of the checks' fallback confidences: 0.5 when an eco keyword is
found, 0.3 otherwise) — so unavailability blocks submission precisely
when the text lacks eco keywords or contains flagged language. -/
theorem claim7_thm (content : String) (title category : Option String)
    (sug : Option (Option (List String))) :
    (validatePostContent content title category none none sug).isValid
      = (ecoKeywords.any
            (fun keyword => jsIncludes (jsToLower (titleContentText title content)) keyword)
          && !(inappropriateKeywords.any
            (fun keyword => jsIncludes (jsToLower (titleContentText title content)) keyword))) ∧
    (validatePostContent content title category none none sug).isEcoRelated
      = ecoKeywords.any
          (fun keyword => jsIncludes (jsToLower (titleContentText title content)) keyword) ∧
    (validatePostContent content title category none none sug).confidence
      = (if ecoKeywords.any
            (fun keyword => jsIncludes (jsToLower (titleContentText title content)) keyword)
         then (0.5 : Rat) else 0.3) := by
  cases hEco : ecoKeywords.any
      (fun keyword => jsIncludes (jsToLower (titleContentText title content)) keyword) <;>
    cases hBad : inappropriateKeywords.any
        (fun keyword => jsIncludes (jsToLower (titleContentText title content)) keyword) <;>
      refine ⟨by simp [validatePostContent, checkEcoRelevance, checkContentModeration, hEco, hBad],
              by simp [validatePostContent, checkEcoRelevance, checkContentModeration, hEco, hBad],
              ?_⟩ <;>
        simp [validatePostContent, checkEcoRelevance, checkContentModeration, hEco, hBad,
              min_def] <;>
          norm_num

end EcoCircle
